import Mathlib

/-!
Verification development for `nest-kafka-check`, a NestJS service that
diagnoses Kafka connectivity at application startup.

The repository contains two variants of the health-check service:
the expanded variant (file `part_000`, class `KafkaHealthService` with
DNS/TCP preflight checks) and the simple variant (`src/kafka.service.ts`).
Both are embedded below.

Embedding conventions:
* JavaScript strings are `List Char` (`JStr`); string literals are written
  `strL "..."`.  JavaScript `trim`, `split`, `toLowerCase` and `includes`
  are modelled for the ASCII data this program handles.
* Effectful methods are pure functions from the environment and an outcome
  oracle (DNS results, TCP socket events, admin connect / listTopics
  outcomes) to the ordered list of events they perform: every logger call
  and every external call is one event.
* `Number(x)` is modelled as `Option Nat` (`none` for NaN); the program
  only feeds it decimal port / timeout strings.
-/

/-- Embedding of a JavaScript string as its list of characters. -/
abbrev JStr := List Char

/-- Coercion of a Lean string literal into the embedding. -/
def strL (s : String) : JStr := s.toList

/-- Embedding of `mask` (expanded variant, lines 16-20):
`if (!value) return ''; if (value.length <= 4) return '****';
return value.slice(0, 2) + '****' + value.slice(-2);`.
The optional parameter is resolved at call sites; on a string argument
`!value` is the empty-string test, and in the final branch the length is
at least 5, where `slice(0, 2)` is the first two characters and
`slice(-2)` the last two. -/
def mask (value : JStr) : JStr :=
  if value = [] then []
  else if value.length ≤ 4 then strL "****"
  else value.take 2 ++ strL "****" ++ value.drop (value.length - 2)

theorem strL_stars_length : (strL "****").length = 4 := by decide

theorem mask_long (s : JStr) (h : 4 < s.length) :
    mask s = s.take 2 ++ strL "****" ++ s.drop (s.length - 2) := by
  have h0 : s ≠ [] := by
    intro he
    subst he
    simp at h
  rw [mask, if_neg h0, if_neg (by omega)]

theorem mask_long_parts_len (s : JStr) (h : 4 < s.length) :
    (s.take 2).length = 2 ∧ (s.drop (s.length - 2)).length = 2 := by
  constructor
  · rw [List.length_take]
    omega
  · rw [List.length_drop]
    omega

theorem mask_long_length (s : JStr) (h : 4 < s.length) : (mask s).length = 8 := by
  obtain ⟨h2, hd⟩ := mask_long_parts_len s h
  rw [mask_long s h, List.length_append, List.length_append, h2, hd, strL_stars_length]

/-- C7 counterexample: the claim says every string of length at most 4,
including the empty string, masks to the fixed fallback `"****"`; but the
source returns the empty string for empty input (`if (!value) return '';`). -/
theorem mask_empty_counterexample :
    mask (strL "") = strL "" ∧ mask (strL "") ≠ strL "****" := by decide

/-- C7 (amended): for every string of length greater than 4 the mask is the
first 2 characters, the fixed filler, and the last 2 characters; every
nonempty string of length at most 4 masks to the fixed fallback `"****"`;
the empty string masks to the empty string (so apart from the degenerate
empty value, the raw middle of a secret is never emitted). -/
theorem mask_shape (s : JStr) :
    (4 < s.length → mask s = s.take 2 ++ strL "****" ++ s.drop (s.length - 2)) ∧
    (s ≠ [] → s.length ≤ 4 → mask s = strL "****") ∧
    (s = [] → mask s = []) := by
  refine ⟨fun h => mask_long s h, fun h1 h2 => ?_, fun h => ?_⟩
  · rw [mask, if_neg h1, if_pos h2]
  · subst h
    rfl

/-- Witness for `mask_shape` at the concrete secrets `"hunter2pass"` and `"abc"`. -/
theorem mask_shape_witness :
    mask (strL "hunter2pass") =
      (strL "hunter2pass").take 2 ++ strL "****" ++
        (strL "hunter2pass").drop ((strL "hunter2pass").length - 2) ∧
    mask (strL "abc") = strL "****" :=
  ⟨(mask_shape (strL "hunter2pass")).1 (by decide),
   (mask_shape (strL "abc")).2.1 (by decide) (by decide)⟩

theorem mask_fixed_point (A C : JStr) (hA : A.length = 2) (hC : C.length = 2) :
    mask (A ++ strL "****" ++ C) = A ++ strL "****" ++ C := by
  have hlen : (A ++ strL "****" ++ C).length = 8 := by
    rw [List.length_append, List.length_append, hA, hC, strL_stars_length]
  have ht : (A ++ strL "****" ++ C).take 2 = A := by
    rw [List.append_assoc]
    exact List.take_left' hA
  have hd : (A ++ strL "****" ++ C).drop 6 = C := by
    have hAB : (A ++ strL "****").length = 6 := by
      rw [List.length_append, hA, strL_stars_length]
    exact List.drop_left' hAB
  have h62 : (8 : Nat) - 2 = 6 := rfl
  rw [mask_long _ (by omega), hlen, h62, ht, hd]

theorem mask_idem_aux (s : JStr) : mask (mask s) = mask s := by
  by_cases h0 : s = []
  · subst h0
    rfl
  by_cases h4 : s.length ≤ 4
  · have hs : mask s = strL "****" := by
      rw [mask, if_neg h0, if_pos h4]
    rw [hs]
    decide
  · have h5 : 4 < s.length := by omega
    obtain ⟨h2, hd⟩ := mask_long_parts_len s h5
    rw [mask_long s h5]
    exact mask_fixed_point _ _ h2 hd

/-- C8: credential masking is idempotent — masking twice yields the same
output as masking once — and the secret `"hunter2pass"` masks to
`"hu****ss"`, showing only its first 2 and last 2 characters. -/
theorem mask_idem :
    (∀ s : JStr, mask (mask s) = mask s) ∧
    mask (strL "hunter2pass") = strL "hu****ss" :=
  ⟨mask_idem_aux, by decide⟩

/-- C10: the masked form does not reveal the secret's length beyond the
length-at-most-4 threshold — any two secrets of length greater than 4 that
agree on their first 2 and last 2 characters have identical masks, and the
mask of any such secret has length exactly 8 (the middle is the fixed
4-character filler, independent of input length). -/
theorem mask_hides_length (s1 s2 : JStr) (h1 : 4 < s1.length) (h2 : 4 < s2.length)
    (hf : s1.take 2 = s2.take 2)
    (hl : s1.drop (s1.length - 2) = s2.drop (s2.length - 2)) :
    mask s1 = mask s2 ∧ (mask s1).length = 8 := by
  constructor
  · rw [mask_long s1 h1, mask_long s2 h2, hf, hl]
  · exact mask_long_length s1 h1

/-- Witness for `mask_hides_length`: the secrets `"hunter2pass"` and
`"human-boss"` differ in length but agree on first 2 and last 2 characters,
so their masks coincide. -/
theorem mask_hides_length_witness :
    mask (strL "hunter2pass") = mask (strL "human-boss") ∧
    (mask (strL "hunter2pass")).length = 8 :=
  mask_hides_length (strL "hunter2pass") (strL "human-boss")
    (by decide) (by decide) (by decide) (by decide)

/-- Socket event delivered by the runtime to one of the three `once`
handlers registered by `tcpProbe` (lines 35-37).  The error event carries
the JS error's optional `message` field and its `String(e)` rendering. -/
inductive SocketEvent
  | connect
  | timeout
  | sockError (message : Option JStr) (rendering : JStr)
deriving DecidableEq

/-- Result object `{ ok, error }` resolved by `tcpProbe`. -/
structure TcpResult where
  ok : Bool
  error : Option JStr
deriving DecidableEq

/-- State of one `tcpProbe` run: whether `socket.destroy()` has been invoked
and the value the promise has resolved with (a promise resolves at most
once; `none` means still pending). -/
structure SocketState where
  destroyed : Bool
  resolved : Option TcpResult
deriving DecidableEq

/-- Embedding of the local `done` closure (lines 26-31): destroy the socket
first — `try { socket.destroy() } catch {}` swallows any destroy error, so
destruction never alters control flow — then resolve `{ ok, error }`.
Resolving an already-resolved promise is a no-op, which is the latch in the
`match` below. -/
def done (s : SocketState) (ok : Bool) (error : Option JStr) : SocketState :=
  { destroyed := true
    resolved :=
      match s.resolved with
      | some r => some r
      | none => some { ok := ok, error := error } }

/-- Message `timeout after ${timeoutMs}ms` (line 36). -/
def timeoutMsg (timeoutMs : Nat) : JStr :=
  strL ("timeout after " ++ toString timeoutMs ++ "ms")

/-- Embedding of `e?.message || String(e)` (line 37). -/
def jsErrReason (message : Option JStr) (rendering : JStr) : JStr :=
  match message with
  | some m => if m = [] then rendering else m
  | none => rendering

/-- Dispatch of one socket event to the handlers of lines 35-37. -/
def handleSocketEvent (timeoutMs : Nat) (s : SocketState) : SocketEvent → SocketState
  | .connect => done s true none
  | .timeout => done s false (some (timeoutMsg timeoutMs))
  | .sockError m r => done s false (some (jsErrReason m r))

/-- State of the executor after a successful `socket.connect(port, host)`
call: the runtime delivers a sequence of socket events and the final state
is their fold. -/
def runSocketEvents (timeoutMs : Nat) (events : List SocketEvent) : SocketState :=
  events.foldl (handleSocketEvent timeoutMs) { destroyed := false, resolved := none }

/-- Node's port validation performed synchronously by
`socket.connect(port, host)` (line 39): the port must be a number that is
an integer in [0, 65535].  `none` models NaN (e.g. `Number('abc')`);
non-integer numerics are coarsened to `none` as well, since `connect`
throws the same `ERR_SOCKET_BAD_PORT` for both. -/
def validPort : Option Nat → Bool
  | none => false
  | some p => p ≤ 65535

/-- What the caller awaiting `tcpProbe(..)` observes: either the promise
rejects — `socket.connect` threw `ERR_SOCKET_BAD_PORT` synchronously
inside the executor, which the Promise constructor turns into a rejection —
or the promise run proceeds and resolves via the handlers. -/
inductive TcpProbeOutcome
  | rejected
  | run (s : SocketState)
deriving DecidableEq

/-- Embedding of `tcpProbe(host, port, timeoutMs)` (lines 22-41): the
executor creates the socket, registers the three handlers, then calls
`socket.connect(port, host)`.  With a valid port the runtime delivers
socket events and the fold of those events is the run's state; with an
invalid port (NaN, non-integer, above 65535) `connect` throws
`ERR_SOCKET_BAD_PORT` out of the executor, so the awaited promise rejects:
no handler fires, `done` never runs and the socket is not destroyed. -/
def tcpProbe (host : JStr) (port : Option Nat) (timeoutMs : Nat)
    (events : List SocketEvent) : TcpProbeOutcome :=
  if validPort port then TcpProbeOutcome.run (runSocketEvents timeoutMs events)
  else TcpProbeOutcome.rejected

theorem handle_preserves (timeoutMs : Nat) (s : SocketState) (ev : SocketEvent)
    (r : TcpResult) (h : s.resolved = some r) :
    (handleSocketEvent timeoutMs s ev).resolved = some r ∧
    (handleSocketEvent timeoutMs s ev).destroyed = true := by
  cases ev <;> simp [handleSocketEvent, done, h]

theorem foldl_preserves (timeoutMs : Nat) (evs : List SocketEvent) (s : SocketState)
    (r : TcpResult) (h : s.resolved = some r) (hd : s.destroyed = true) :
    (evs.foldl (handleSocketEvent timeoutMs) s).resolved = some r ∧
    (evs.foldl (handleSocketEvent timeoutMs) s).destroyed = true := by
  induction evs generalizing s with
  | nil => exact ⟨h, hd⟩
  | cons ev rest ih =>
      obtain ⟨h1, h2⟩ := handle_preserves timeoutMs s ev r h
      exact ih _ h1 h2

/-- The result each kind of first socket event resolves with. -/
def firstResult (timeoutMs : Nat) : SocketEvent → TcpResult
  | SocketEvent.connect => { ok := true, error := none }
  | SocketEvent.timeout => { ok := false, error := some (timeoutMsg timeoutMs) }
  | SocketEvent.sockError m r => { ok := false, error := some (jsErrReason m r) }

theorem runSocketEvents_first (timeoutMs : Nat) (ev : SocketEvent)
    (rest : List SocketEvent) :
    runSocketEvents timeoutMs (ev :: rest) =
      { destroyed := true, resolved := some (firstResult timeoutMs ev) } := by
  have hfirst :
      (handleSocketEvent timeoutMs { destroyed := false, resolved := none } ev).resolved =
        some (firstResult timeoutMs ev) ∧
      (handleSocketEvent timeoutMs { destroyed := false, resolved := none } ev).destroyed =
        true := by
    cases ev <;> simp [handleSocketEvent, done, firstResult]
  obtain ⟨h1, h2⟩ := hfirst
  obtain ⟨h3, h4⟩ := foldl_preserves timeoutMs rest _ _ h1 h2
  have heta : runSocketEvents timeoutMs (ev :: rest) =
      { destroyed := (runSocketEvents timeoutMs (ev :: rest)).destroyed
        resolved := (runSocketEvents timeoutMs (ev :: rest)).resolved } := rfl
  rw [heta]
  have h3' : (runSocketEvents timeoutMs (ev :: rest)).resolved =
      some (firstResult timeoutMs ev) := h3
  have h4' : (runSocketEvents timeoutMs (ev :: rest)).destroyed = true := h4
  rw [h3', h4']

theorem tcpProbe_valid_run (host : JStr) (port : Option Nat) (timeoutMs : Nat)
    (ev : SocketEvent) (rest : List SocketEvent) (hv : validPort port = true) :
    tcpProbe host port timeoutMs (ev :: rest) =
      TcpProbeOutcome.run
        { destroyed := true, resolved := some (firstResult timeoutMs ev) } := by
  rw [tcpProbe, if_pos hv, runSocketEvents_first]

theorem tcpProbe_invalid (host : JStr) (port : Option Nat) (timeoutMs : Nat)
    (events : List SocketEvent) (hv : validPort port = false) :
    tcpProbe host port timeoutMs events = TcpProbeOutcome.rejected := by
  rw [tcpProbe, if_neg (by rw [hv]; exact Bool.false_ne_true)]

/-- C3 (amended): for every `tcpProbe` invocation whose port is valid (an
integer at most 65535), once a socket event fires exactly one result is
delivered to the caller, determined by the first event — connect success,
timeout with reason `timeout after Nms`, or the underlying error message —
regardless of later events, and `socket.destroy()` has run before the
result exists; on those runs the executor never raises.  For an invalid
port (NaN from a non-numeric token, or out of range), however,
`socket.connect` throws `ERR_SOCKET_BAD_PORT` synchronously and the awaited
promise rejects: none of the three outcomes is delivered and the socket is
not destroyed first. -/
theorem tcpProbe_outcomes (host : JStr) (port : Option Nat) (timeoutMs : Nat)
    (ev : SocketEvent) (rest : List SocketEvent) :
    (validPort port = true →
      tcpProbe host port timeoutMs (ev :: rest) =
        TcpProbeOutcome.run
          { destroyed := true, resolved := some (firstResult timeoutMs ev) }) ∧
    (validPort port = false →
      tcpProbe host port timeoutMs (ev :: rest) = TcpProbeOutcome.rejected) :=
  ⟨tcpProbe_valid_run host port timeoutMs ev rest,
   tcpProbe_invalid host port timeoutMs (ev :: rest)⟩

/-- Witness for `tcpProbe_outcomes`: a timeout on the conventional port
9092 resolves with the timeout result; the NaN port rejects. -/
theorem tcpProbe_outcomes_witness :
    tcpProbe (strL "b1") (some 9092) 4000 [SocketEvent.timeout] =
      TcpProbeOutcome.run
        { destroyed := true, resolved := some (firstResult 4000 SocketEvent.timeout) } ∧
    tcpProbe (strL "x") none 4000 [SocketEvent.timeout] = TcpProbeOutcome.rejected :=
  ⟨(tcpProbe_outcomes (strL "b1") (some 9092) 4000 SocketEvent.timeout []).1 (by decide),
   (tcpProbe_outcomes (strL "x") none 4000 SocketEvent.timeout []).2 (by decide)⟩

/-- Root-cause hypotheses named by the spec's classification table. -/
inductive Hypothesis
  | CONNECTION_RESET
  | SASL_AUTH_FAILURE
  | TLS_MISMATCH
  | DNS_UNRESOLVED
  | NETWORK_UNREACHABLE
  | LEADER_METADATA_MISMATCH
deriving DecidableEq

/-- Matching of a pattern against the start of a string, used to define the
substring test. -/
def beginsWith : JStr → JStr → Bool
  | [], _ => true
  | _ :: _, [] => false
  | a :: as, b :: bs => a = b && beginsWith as bs

/-- Embedding of JavaScript `hay.includes(pat)`: substring test. -/
def containsSeq (pat : JStr) : JStr → Bool
  | [] => beginsWith pat []
  | c :: rest => beginsWith pat (c :: rest) || containsSeq pat rest

/-- Embedding of `toLowerCase()` for the ASCII messages this program
handles. -/
def jsToLower (s : JStr) : JStr := s.map Char.toLower

/-- Embedding of the hint classifier in the expanded variant's catch block
(lines 213-250): `msg` is `String(err?.message || '').toLowerCase()` and
each `if (msg.includes(..) || ..)` logs one hint; the tests are independent
`if` statements, so the run logs every hint whose family matches, in source
order.  Note this variant tests `'timed out'`/`'etimedout'` but not
`'econnrefused'`. -/
def classifyPreflight (message : JStr) : List Hypothesis :=
  let msg := jsToLower message
  (if containsSeq (strL "closed connection") msg then
    [Hypothesis.CONNECTION_RESET] else []) ++
  (if containsSeq (strL "sasl") msg || containsSeq (strL "authentication") msg then
    [Hypothesis.SASL_AUTH_FAILURE] else []) ++
  (if containsSeq (strL "ssl") msg || containsSeq (strL "tls") msg ||
      containsSeq (strL "certificate") msg || containsSeq (strL "self signed") msg then
    [Hypothesis.TLS_MISMATCH] else []) ++
  (if containsSeq (strL "enotfound") msg || containsSeq (strL "getaddrinfo") msg then
    [Hypothesis.DNS_UNRESOLVED] else []) ++
  (if containsSeq (strL "timed out") msg || containsSeq (strL "etimedout") msg then
    [Hypothesis.NETWORK_UNREACHABLE] else []) ++
  (if containsSeq (strL "metadata") msg || containsSeq (strL "leader") msg then
    [Hypothesis.LEADER_METADATA_MISMATCH] else [])

/-- Embedding of the hint classifier in the simple variant
(`src/kafka.service.ts` lines 64-80), same shape with its own pattern
families; this variant does test `'econnrefused'`. -/
def classifySimple (message : JStr) : List Hypothesis :=
  let msg := jsToLower message
  (if containsSeq (strL "sasl") msg || containsSeq (strL "authentication") msg ||
      containsSeq (strL "not authorized") msg then
    [Hypothesis.SASL_AUTH_FAILURE] else []) ++
  (if containsSeq (strL "ssl") msg || containsSeq (strL "tls") msg ||
      containsSeq (strL "certificate") msg || containsSeq (strL "self signed") msg then
    [Hypothesis.TLS_MISMATCH] else []) ++
  (if containsSeq (strL "getaddrinfo") msg || containsSeq (strL "enotfound") msg ||
      containsSeq (strL "name resolution") msg then
    [Hypothesis.DNS_UNRESOLVED] else []) ++
  (if containsSeq (strL "econnrefused") msg || containsSeq (strL "timed out") msg ||
      containsSeq (strL "etimedout") msg then
    [Hypothesis.NETWORK_UNREACHABLE] else []) ++
  (if containsSeq (strL "broker not available") msg || containsSeq (strL "not a leader") msg ||
      containsSeq (strL "metadata") msg then
    [Hypothesis.LEADER_METADATA_MISMATCH] else [])

/-- C5 counterexample: a connect failure message containing `econnrefused`
(the claim's premise holds, first conjunct) yields no NETWORK_UNREACHABLE
hint from the expanded variant's classifier, whose network family tests
only `'timed out'` and `'etimedout'` (lines 241-245). -/
theorem econnrefused_no_hint_counterexample :
    containsSeq (strL "econnrefused")
      (jsToLower (strL "connect ECONNREFUSED 10.96.0.1:9092")) = true ∧
    Hypothesis.NETWORK_UNREACHABLE ∉
      classifyPreflight (strL "connect ECONNREFUSED 10.96.0.1:9092") := by
  decide

/-- C5 (amended): the simple variant's classifier emits NETWORK_UNREACHABLE
for every message containing `econnrefused`, `timed out` or `etimedout`
(lower-cased substring match); the expanded variant's classifier does so
for `timed out` and `etimedout` but not for `econnrefused` alone. -/
theorem network_hint_amended (message : JStr) :
    (containsSeq (strL "econnrefused") (jsToLower message) = true →
      Hypothesis.NETWORK_UNREACHABLE ∈ classifySimple message) ∧
    (containsSeq (strL "timed out") (jsToLower message) = true ∨
        containsSeq (strL "etimedout") (jsToLower message) = true →
      Hypothesis.NETWORK_UNREACHABLE ∈ classifyPreflight message ∧
      Hypothesis.NETWORK_UNREACHABLE ∈ classifySimple message) := by
  refine ⟨fun h => ?_, fun h => ?_⟩
  · simp [classifySimple, h, List.mem_append]
  · obtain h | h := h
    · constructor
      · simp [classifyPreflight, h, List.mem_append]
      · simp [classifySimple, h, List.mem_append]
    · constructor
      · simp [classifyPreflight, h, List.mem_append]
      · simp [classifySimple, h, List.mem_append]

/-- Witness for `network_hint_amended` at the message `"request timed out"`
and at `"connect ECONNREFUSED 10.1.2.3:9092"`. -/
theorem network_hint_amended_witness :
    Hypothesis.NETWORK_UNREACHABLE ∈ classifySimple (strL "connect ECONNREFUSED 10.1.2.3:9092") ∧
    (Hypothesis.NETWORK_UNREACHABLE ∈ classifyPreflight (strL "request timed out") ∧
      Hypothesis.NETWORK_UNREACHABLE ∈ classifySimple (strL "request timed out")) :=
  ⟨(network_hint_amended (strL "connect ECONNREFUSED 10.1.2.3:9092")).1 (by decide),
   (network_hint_amended (strL "request timed out")).2 (Or.inl (by decide))⟩

/-- C6: diagnosis classification is non-exclusive — the message
`"SASL authentication failed due to SSL handshake error"` fires both the
SASL family and the TLS family of the expanded variant's classifier, since
each family is an independent `if`. -/
theorem classify_non_exclusive :
    Hypothesis.SASL_AUTH_FAILURE ∈
      classifyPreflight (strL "SASL authentication failed due to SSL handshake error") ∧
    Hypothesis.TLS_MISMATCH ∈
      classifyPreflight (strL "SASL authentication failed due to SSL handshake error") := by
  decide

/-- JS error object as observed by the catch blocks: optional `name` and
`message` fields, the `stack` rendering (`''` when absent) and the
`String(err)` rendering used by `${err}` interpolation. -/
structure JsErr where
  name : Option JStr
  message : Option JStr
  stack : JStr
  rendering : JStr
deriving DecidableEq

/-- Embedding of `x || deflt` on an optional string (JS `||` takes the
default when the value is absent or the empty string). -/
def jsOr (v : Option JStr) (deflt : JStr) : JStr :=
  match v with
  | none => deflt
  | some s => if s = [] then deflt else s

/-- Decimal parsing for `Number(..)`, `none` standing for NaN; modelled for
the plain decimal integers this program supplies (no signs, fractions or
exponents). -/
def parseDecimal (s : JStr) : Option Nat :=
  if s ≠ [] ∧ s.all Char.isDigit then
    some (s.foldl (fun acc c => 10 * acc + (c.toNat - 48)) 0)
  else none

/-- Embedding of `Number(process.env.X || deflt)` with a numeric default:
the default short-circuits `Number` entirely. -/
def jsNumEnv (v : Option JStr) (deflt : Nat) : Option Nat :=
  match v with
  | none => some deflt
  | some s => if s = [] then some deflt else parseDecimal s

/-- Embedding of JavaScript `str.split(sep)` for a one-character separator:
`''.split(',')` is `['']` and separators at the ends produce empty fields. -/
def splitOnChar (sep : Char) : JStr → List JStr
  | [] => [[]]
  | c :: rest =>
    match splitOnChar sep rest with
    | [] => [[]]
    | t :: ts => if c = sep then [] :: t :: ts else (c :: t) :: ts

/-- Embedding of `trim()` for the ASCII whitespace this program meets. -/
def jsTrim (s : JStr) : JStr :=
  ((s.dropWhile Char.isWhitespace).reverse.dropWhile Char.isWhitespace).reverse

/-- Embedding of line 51:
`brokersRaw.split(',').map((b) => b.trim()).filter(Boolean)` —
`filter(Boolean)` keeps exactly the nonempty strings. -/
def parseBrokers (brokersRaw : JStr) : List JStr :=
  ((splitOnChar ',' brokersRaw).map jsTrim).filter (fun b => b ≠ [])

/-- Embedding of line 99: `const [host, portStr] = broker.split(':')` —
`host` is the first field (a split is never empty). -/
def brokerHost (broker : JStr) : JStr :=
  (splitOnChar ':' broker).headD []

/-- Embedding of line 100: `const port = Number(portStr || 9092)` where
`portStr` is the second field of the split, possibly absent. -/
def brokerPort (broker : JStr) : Option Nat :=
  match (splitOnChar ':' broker)[1]? with
  | none => some 9092
  | some s => if s = [] then some 9092 else parseDecimal s

/-- Embedding of `arr.join(sep)` for a one-character separator. -/
def joinLines (ls : List JStr) : JStr :=
  match ls with
  | [] => []
  | l :: rest => rest.foldl (fun acc x => acc ++ ['\n'] ++ x) l

/-- Configuration read from the environment (lines 50-70). -/
structure Config where
  brokersRaw : JStr
  brokers : List JStr
  clientId : JStr
  username : JStr
  password : JStr
  sslEnabled : Bool
  mechanism : JStr
  connectionTimeout : Option Nat
  requestTimeout : Option Nat
  retries : Option Nat
  retryInitial : Option Nat
  debugKafkaJs : Bool
deriving DecidableEq

/-- Environment variables read by the expanded variant; `none` models an
unset variable. -/
structure Env where
  KAFKA_BROKERS : Option JStr
  KAFKA_CLIENT_ID : Option JStr
  KAFKA_USERNAME : Option JStr
  KAFKA_PASSWORD : Option JStr
  KAFKA_SSL : Option JStr
  KAFKA_SASL_MECHANISM : Option JStr
  KAFKA_CONN_TIMEOUT_MS : Option JStr
  KAFKA_REQ_TIMEOUT_MS : Option JStr
  KAFKA_RETRIES : Option JStr
  KAFKA_RETRY_INITIAL_MS : Option JStr
  KAFKA_DEBUG : Option JStr
deriving DecidableEq

/-- Embedding of lines 50-70: defaulting and parsing of every recognized
option. -/
def readConfig (env : Env) : Config :=
  { brokersRaw := jsOr env.KAFKA_BROKERS []
    brokers := parseBrokers (jsOr env.KAFKA_BROKERS [])
    clientId := jsOr env.KAFKA_CLIENT_ID (strL "nest-kafka-check")
    username := jsOr env.KAFKA_USERNAME []
    password := jsOr env.KAFKA_PASSWORD []
    sslEnabled := jsToLower (jsOr env.KAFKA_SSL (strL "true")) == strL "true"
    mechanism := jsToLower (jsOr env.KAFKA_SASL_MECHANISM (strL "plain"))
    connectionTimeout := jsNumEnv env.KAFKA_CONN_TIMEOUT_MS 8000
    requestTimeout := jsNumEnv env.KAFKA_REQ_TIMEOUT_MS 30000
    retries := jsNumEnv env.KAFKA_RETRIES 6
    retryInitial := jsNumEnv env.KAFKA_RETRY_INITIAL_MS 300
    debugKafkaJs := jsToLower (jsOr env.KAFKA_DEBUG (strL "true")) == strL "true" }

/-- Payload of the boot banner block (lines 73-88), one field per logged
line, with credentials passing through `mask`. -/
structure BootInfo where
  clientId : JStr
  brokersRaw : JStr
  brokersCount : Nat
  ssl : Bool
  sasl : JStr
  usernameMasked : JStr
  passwordMasked : JStr
  connectionTimeout : Option Nat
  requestTimeout : Option Nat
  retries : Option Nat
  retryInitial : Option Nat
  kafkajsDebug : Bool
deriving DecidableEq

/-- The banner fields as computed at lines 73-88. -/
def bootInfo (cfg : Config) : BootInfo :=
  { clientId := cfg.clientId
    brokersRaw := cfg.brokersRaw
    brokersCount := cfg.brokers.length
    ssl := cfg.sslEnabled
    sasl := if cfg.username = [] then strL "none" else cfg.mechanism
    usernameMasked := if cfg.username = [] then strL "(empty)" else mask cfg.username
    passwordMasked := if cfg.password = [] then strL "(empty)" else mask cfg.password
    connectionTimeout := cfg.connectionTimeout
    requestTimeout := cfg.requestTimeout
    retries := cfg.retries
    retryInitial := cfg.retryInitial
    kafkajsDebug := cfg.debugKafkaJs }

/-- One observable step of the expanded variant's `onModuleInit`: every
logger call and every external call, in program order. -/
inductive Event
  | logBanner (info : BootInfo)
  | logEmptyBrokers
  | logPreflight (broker : JStr)
  | dnsLookup (host : JStr)
  | logDnsOk (host : JStr) (addresses : List JStr)
  | logDnsFail (host : JStr) (message : JStr)
  | tcpCall (host : JStr) (port : Option Nat) (timeoutMs : Nat)
  | logTcpOk (host : JStr) (port : Option Nat)
  | logTcpFail (host : JStr) (port : Option Nat) (reason : Option JStr)
  | logTcpHint
  | newKafkaClient (brokers : List JStr) (ssl : Bool)
      (sasl : Option (JStr × JStr × JStr))
      (connectionTimeout requestTimeout : Option Nat)
      (retries retryInitial : Option Nat) (debug : Bool)
  | adminCreated
  | logConnectWait
  | adminConnect
  | logConnected
  | logListWait
  | adminListTopics
  | logReachable (topicCount : Nat)
  | logTopicsSample (sample : List JStr)
  | logConnFailed
  | logErrName (name : JStr) (message : JStr)
  | logStackTop (stackTop : JStr)
  | logHint (h : Hypothesis)
  | logKeepAlive
deriving DecidableEq

/-- DNS outcome supplied by the resolver. -/
inductive DnsOutcome
  | ok (addresses : List JStr)
  | fail (message : JStr)
deriving DecidableEq

/-- External-world oracle for one run: the DNS result per host, the socket
events per TCP probe (a first event — the `await` returns — plus any later
ones), and the outcomes of `admin.connect()` and `admin.listTopics()`. -/
structure Oracle where
  dns : JStr → DnsOutcome
  tcpFirst : JStr → Option Nat → SocketEvent
  tcpRest : JStr → Option Nat → List SocketEvent
  connect : Except JsErr Unit
  listTopics : Except JsErr (List JStr)

/-- Embedding of one iteration of the preflight loop (lines 98-122): log
the broker, run `dns.lookup` with its OK/FAIL log, then invoke `tcpProbe`.
The `tcpCall` event records that `tcpProbe(host, port, 4000)` was entered;
if its promise rejects (`ERR_SOCKET_BAD_PORT` on an invalid port token) the
`await` at line 113 throws out of `onModuleInit` — the second component
`true` — since the surrounding `try` (lines 104-111) covers only the DNS
lookup; otherwise the resolved result is logged and the loop continues. -/
def preflightBroker (o : Oracle) (broker : JStr) : List Event × Bool :=
  let host := brokerHost broker
  let port := brokerPort broker
  let head := [Event.logPreflight broker, Event.dnsLookup host] ++
    (match o.dns host with
     | DnsOutcome.ok addrs => [Event.logDnsOk host addrs]
     | DnsOutcome.fail m => [Event.logDnsFail host m]) ++
    [Event.tcpCall host port 4000]
  match tcpProbe host port 4000 (o.tcpFirst host port :: o.tcpRest host port) with
  | TcpProbeOutcome.rejected => (head, true)
  | TcpProbeOutcome.run s =>
    let probe := s.resolved.getD { ok := false, error := none }
    (head ++
      (if probe.ok then [Event.logTcpOk host port]
       else [Event.logTcpFail host port probe.error, Event.logTcpHint]), false)

/-- The `for (const broker of brokers)` loop (line 98), in input order: a
rejected `await` aborts the loop, leaving the remaining brokers
unprobed. -/
def preflightAll (o : Oracle) : List JStr → List Event × Bool
  | [] => ([], false)
  | b :: bs =>
    let r := preflightBroker o b
    if r.2 then (r.1, true)
    else
      let rest := preflightAll o bs
      (r.1 ++ rest.1, rest.2)

/-- Embedding of the catch block (lines 202-255): failure banner, error
name and message, up to 8 leading stack lines when a stack exists, one hint
per matching family of the classifier, then the keep-alive warning. -/
def catchTrace (e : JsErr) : List Event :=
  [Event.logConnFailed,
   Event.logErrName (jsOr e.name (strL "UnknownError")) (jsOr e.message e.rendering)] ++
  (let stackTop := joinLines ((splitOnChar '\n' e.stack).take 8)
   if stackTop ≠ [] then [Event.logStackTop stackTop] else []) ++
  (classifyPreflight (jsOr e.message [])).map Event.logHint ++
  [Event.logKeepAlive]

/-- Embedding of lines 159-255: construct the Kafka client and the admin
handle, attempt `connect()` then `listTopics()` inside one `try`, and on
any failure run the catch block.  The client constructor's cosmetic logger
wiring (`logCreator`, `logLevel`) has no observable effect here beyond the
`debug` flag it is given. -/
def adminPhase (cfg : Config) (o : Oracle) : List Event :=
  [Event.newKafkaClient cfg.brokers cfg.sslEnabled
    (if cfg.username = [] then none else some (cfg.mechanism, cfg.username, cfg.password))
    cfg.connectionTimeout cfg.requestTimeout cfg.retries cfg.retryInitial cfg.debugKafkaJs,
   Event.adminCreated, Event.logConnectWait, Event.adminConnect] ++
  match o.connect with
  | Except.error e => catchTrace e
  | Except.ok _ =>
    [Event.logConnected, Event.logListWait, Event.adminListTopics] ++
    match o.listTopics with
    | Except.error e => catchTrace e
    | Except.ok topics =>
      [Event.logReachable topics.length] ++
      if cfg.debugKafkaJs then [Event.logTopicsSample (topics.take 10)] else []

/-- Result of one `onModuleInit` run: the ordered events it performed and
whether the method's promise rejected (a preflight `await` threw). -/
structure InitRun where
  events : List Event
  raised : Bool
deriving DecidableEq

/-- Embedding of the expanded variant's `onModuleInit` (lines 49-256):
banner, early return on an empty broker list, otherwise the preflight loop
— which aborts the whole method if a TCP probe's promise rejects —
followed by the admin phase. -/
def onModuleInit (env : Env) (o : Oracle) : InitRun :=
  let cfg := readConfig env
  if cfg.brokers = [] then
    { events := [Event.logBanner (bootInfo cfg), Event.logEmptyBrokers]
      raised := false }
  else
    let pf := preflightAll o cfg.brokers
    if pf.2 then
      { events := Event.logBanner (bootInfo cfg) :: pf.1, raised := true }
    else
      { events := Event.logBanner (bootInfo cfg) :: (pf.1 ++ adminPhase cfg o)
        raised := false }

/-- Hosts of the `dns.lookup` invocations in a trace, in order. -/
def dnsCalls : List Event → List JStr
  | [] => []
  | Event.dnsLookup h :: rest => h :: dnsCalls rest
  | _ :: rest => dnsCalls rest

/-- Targets of the `tcpProbe` invocations in a trace, in order. -/
def tcpCalls : List Event → List (JStr × Option Nat)
  | [] => []
  | Event.tcpCall h p _ :: rest => (h, p) :: tcpCalls rest
  | _ :: rest => tcpCalls rest

/-- Test for the Kafka client construction event. -/
def isClientConstruct : Event → Bool
  | Event.newKafkaClient _ _ _ _ _ _ _ _ => true
  | _ => false

/-- Test for the `admin.connect()` invocation event. -/
def isAdminConnect : Event → Bool
  | Event.adminConnect => true
  | _ => false

theorem dnsCalls_append (a b : List Event) :
    dnsCalls (a ++ b) = dnsCalls a ++ dnsCalls b := by
  induction a with
  | nil => rfl
  | cons e rest ih => cases e <;> simp [dnsCalls, ih]

theorem tcpCalls_append (a b : List Event) :
    tcpCalls (a ++ b) = tcpCalls a ++ tcpCalls b := by
  induction a with
  | nil => rfl
  | cons e rest ih => cases e <;> simp [tcpCalls, ih]

theorem dnsCalls_map_logHint (hs : List Hypothesis) :
    dnsCalls (hs.map Event.logHint) = [] := by
  induction hs with
  | nil => rfl
  | cons h rest ih => simp [dnsCalls, ih]

theorem tcpCalls_map_logHint (hs : List Hypothesis) :
    tcpCalls (hs.map Event.logHint) = [] := by
  induction hs with
  | nil => rfl
  | cons h rest ih => simp [tcpCalls, ih]

theorem dnsCalls_catchTrace (e : JsErr) : dnsCalls (catchTrace e) = [] := by
  rw [catchTrace]
  by_cases hst : joinLines ((splitOnChar '\n' e.stack).take 8) = [] <;>
    simp [dnsCalls, dnsCalls_append, dnsCalls_map_logHint, hst]

theorem tcpCalls_catchTrace (e : JsErr) : tcpCalls (catchTrace e) = [] := by
  rw [catchTrace]
  by_cases hst : joinLines ((splitOnChar '\n' e.stack).take 8) = [] <;>
    simp [tcpCalls, tcpCalls_append, tcpCalls_map_logHint, hst]

theorem dnsCalls_adminPhase (cfg : Config) (o : Oracle) :
    dnsCalls (adminPhase cfg o) = [] := by
  rw [adminPhase, dnsCalls_append]
  cases o.connect with
  | error e => rw [dnsCalls_catchTrace e]; rfl
  | ok u =>
    cases o.listTopics with
    | error e => rw [dnsCalls_append, dnsCalls_catchTrace e]; rfl
    | ok topics =>
      rw [dnsCalls_append, dnsCalls_append]
      by_cases hd : cfg.debugKafkaJs
      · rw [if_pos hd]; rfl
      · rw [if_neg hd]; rfl

theorem tcpCalls_adminPhase (cfg : Config) (o : Oracle) :
    tcpCalls (adminPhase cfg o) = [] := by
  rw [adminPhase, tcpCalls_append]
  cases o.connect with
  | error e => rw [tcpCalls_catchTrace e]; rfl
  | ok u =>
    cases o.listTopics with
    | error e => rw [tcpCalls_append, tcpCalls_catchTrace e]; rfl
    | ok topics =>
      rw [tcpCalls_append, tcpCalls_append]
      by_cases hd : cfg.debugKafkaJs
      · rw [if_pos hd]; rfl
      · rw [if_neg hd]; rfl

/-- C3 counterexample: the port token of `x:abc` gives `Number('abc')`,
NaN, and the TCP probe at that port rejects — none of the three outcomes
(success, timeout, immediate error) is delivered and the socket is not
destroyed first — contradicting the claim that every invocation delivers
exactly one of the three outcomes and never raises to its caller. -/
theorem tcpProbe_raises_counterexample :
    brokerPort (strL "x:abc") = none ∧
    tcpProbe (strL "x") (brokerPort (strL "x:abc")) 4000 [SocketEvent.timeout] =
      TcpProbeOutcome.rejected := by
  decide

theorem preflightBroker_abort (o : Oracle) (b : JStr) :
    (preflightBroker o b).2 = !(validPort (brokerPort b)) := by
  simp only [preflightBroker]
  cases hv : validPort (brokerPort b) with
  | false => rw [tcpProbe_invalid _ _ _ _ hv]; rfl
  | true => rw [tcpProbe_valid_run _ _ _ _ _ hv]; rfl

theorem preflightBroker_calls (o : Oracle) (b : JStr) :
    dnsCalls (preflightBroker o b).1 = [brokerHost b] ∧
    tcpCalls (preflightBroker o b).1 = [(brokerHost b, brokerPort b)] := by
  simp only [preflightBroker]
  cases hv : validPort (brokerPort b) with
  | false =>
      rw [tcpProbe_invalid _ _ _ _ hv]
      cases o.dns (brokerHost b) <;>
        simp [dnsCalls, tcpCalls, dnsCalls_append, tcpCalls_append]
  | true =>
      rw [tcpProbe_valid_run _ _ _ _ _ hv]
      cases o.dns (brokerHost b) <;>
        by_cases hok :
          (firstResult 4000 (o.tcpFirst (brokerHost b) (brokerPort b))).ok = true <;>
          simp [dnsCalls, tcpCalls, dnsCalls_append, tcpCalls_append, Option.getD, hok]

theorem preflightAll_all_valid (o : Oracle) (bs : List JStr)
    (hv : bs.all (fun b => validPort (brokerPort b)) = true) :
    (preflightAll o bs).2 = false ∧
    dnsCalls (preflightAll o bs).1 = bs.map brokerHost ∧
    tcpCalls (preflightAll o bs).1 = bs.map (fun b => (brokerHost b, brokerPort b)) := by
  induction bs with
  | nil => exact ⟨rfl, rfl, rfl⟩
  | cons b rest ih =>
      rw [List.all_cons, Bool.and_eq_true] at hv
      obtain ⟨hb, hrest⟩ := hv
      obtain ⟨hflag, hdns, htcp⟩ := ih hrest
      have hab : (preflightBroker o b).2 = false := by
        rw [preflightBroker_abort, hb]
        rfl
      obtain ⟨hbd, hbt⟩ := preflightBroker_calls o b
      simp only [preflightAll]
      rw [hab, if_neg Bool.false_ne_true]
      refine ⟨hflag, ?_, ?_⟩
      · show dnsCalls ((preflightBroker o b).1 ++ (preflightAll o rest).1) =
          (b :: rest).map brokerHost
        rw [dnsCalls_append, hbd, hdns]
        rfl
      · show tcpCalls ((preflightBroker o b).1 ++ (preflightAll o rest).1) =
          (b :: rest).map (fun x => (brokerHost x, brokerPort x))
        rw [tcpCalls_append, hbt, htcp]
        rfl

theorem preflightAll_cons_ne (o : Oracle) (b : JStr) (bs : List JStr) :
    dnsCalls (preflightAll o (b :: bs)).1 ≠ [] ∧
    tcpCalls (preflightAll o (b :: bs)).1 ≠ [] := by
  obtain ⟨hbd, hbt⟩ := preflightBroker_calls o b
  simp only [preflightAll]
  by_cases hab : (preflightBroker o b).2 = true
  · rw [if_pos hab]
    constructor
    · show dnsCalls (preflightBroker o b).1 ≠ []
      rw [hbd]
      simp
    · show tcpCalls (preflightBroker o b).1 ≠ []
      rw [hbt]
      simp
  · rw [if_neg hab]
    constructor
    · show dnsCalls ((preflightBroker o b).1 ++ (preflightAll o bs).1) ≠ []
      rw [dnsCalls_append, hbd]
      simp
    · show tcpCalls ((preflightBroker o b).1 ++ (preflightAll o bs).1) ≠ []
      rw [tcpCalls_append, hbt]
      simp

theorem dnsCalls_cons_banner (i : BootInfo) (l : List Event) :
    dnsCalls (Event.logBanner i :: l) = dnsCalls l := rfl

theorem tcpCalls_cons_banner (i : BootInfo) (l : List Event) :
    tcpCalls (Event.logBanner i :: l) = tcpCalls l := rfl

theorem onModuleInit_valid (env : Env) (o : Oracle)
    (h : parseBrokers (jsOr env.KAFKA_BROKERS []) ≠ [])
    (hv : (parseBrokers (jsOr env.KAFKA_BROKERS [])).all
        (fun b => validPort (brokerPort b)) = true) :
    (onModuleInit env o).events =
      Event.logBanner (bootInfo (readConfig env)) ::
        ((preflightAll o (parseBrokers (jsOr env.KAFKA_BROKERS []))).1 ++
          adminPhase (readConfig env) o) ∧
    (onModuleInit env o).raised = false := by
  have hbr : (readConfig env).brokers = parseBrokers (jsOr env.KAFKA_BROKERS []) := rfl
  obtain ⟨hflag, -, -⟩ := preflightAll_all_valid o _ hv
  simp only [onModuleInit]
  rw [hbr, if_neg h, hflag, if_neg Bool.false_ne_true]
  exact ⟨rfl, rfl⟩

/-- Concrete environment with a whitespace-only broker list, for the
witnesses. -/
def wEnvEmpty : Env :=
  { KAFKA_BROKERS := some (strL "  ,  ")
    KAFKA_CLIENT_ID := none
    KAFKA_USERNAME := none
    KAFKA_PASSWORD := none
    KAFKA_SSL := none
    KAFKA_SASL_MECHANISM := none
    KAFKA_CONN_TIMEOUT_MS := none
    KAFKA_REQ_TIMEOUT_MS := none
    KAFKA_RETRIES := none
    KAFKA_RETRY_INITIAL_MS := none
    KAFKA_DEBUG := none }

/-- Concrete environment with one broker, for the witnesses. -/
def wEnvOne : Env := { wEnvEmpty with KAFKA_BROKERS := some (strL "badhost:9092") }

/-- Concrete environment with one broker whose port token is not numeric,
for the counterexamples. -/
def wEnvOneBad : Env := { wEnvEmpty with KAFKA_BROKERS := some (strL "x:abc") }

/-- Concrete environment with a bad-port endpoint followed by a good one,
for the counterexamples. -/
def wEnvBadPort : Env :=
  { wEnvEmpty with KAFKA_BROKERS := some (strL "x:abc,y:9092") }

/-- Concrete environment with two brokers, for the witnesses. -/
def wEnvTwo : Env :=
  { wEnvEmpty with KAFKA_BROKERS := some (strL "b1:9092, b2:9093") }

/-- Concrete oracle on which every layer fails, for the witnesses. -/
def wOracleFail : Oracle :=
  { dns := fun _ => DnsOutcome.fail (strL "getaddrinfo ENOTFOUND badhost")
    tcpFirst := fun _ _ => SocketEvent.timeout
    tcpRest := fun _ _ => []
    connect := Except.error
      { name := some (strL "KafkaJSNumberOfRetriesExceeded")
        message := some (strL "Connection timeout")
        stack := strL "KafkaJSNumberOfRetriesExceeded: Connection timeout"
        rendering := strL "KafkaJSNumberOfRetriesExceeded: Connection timeout" }
    listTopics := Except.error
      { name := some (strL "KafkaJSConnectionError")
        message := some (strL "Connection error: connect ECONNREFUSED")
        stack := []
        rendering := strL "KafkaJSConnectionError" } }

/-- Witness for `tcpProbe_outcomes` cannot double as a counterexample for
C1; this is the C1 counterexample: with `KAFKA_BROKERS="x:abc,y:9092"` two
endpoints are configured, but the run performs only one DNS lookup and one
TCP probe invocation — the probe at the NaN port rejects, the method
raises, and `y:9092` is never probed — refuting `exactly N invocations
regardless of outcomes`. -/
theorem network_probe_counterexample :
    (parseBrokers (jsOr wEnvBadPort.KAFKA_BROKERS [])).length = 2 ∧
    dnsCalls (onModuleInit wEnvBadPort wOracleFail).events = [strL "x"] ∧
    tcpCalls (onModuleInit wEnvBadPort wOracleFail).events = [(strL "x", none)] ∧
    (onModuleInit wEnvBadPort wOracleFail).raised = true := by
  decide

/-- C1 (amended): provided every configured endpoint's port token is valid
(absent or a decimal integer at most 65535), the run performs exactly one
`dns.lookup` and exactly one `tcpProbe` invocation per endpoint, in input
order, for every oracle — however the individual DNS and TCP steps fail —
and completes without raising.  An endpoint with an invalid port token
instead aborts the loop at its TCP probe (`ERR_SOCKET_BAD_PORT`), leaving
later endpoints unprobed. -/
theorem network_probe_per_endpoint (env : Env) (o : Oracle)
    (hv : (parseBrokers (jsOr env.KAFKA_BROKERS [])).all
        (fun b => validPort (brokerPort b)) = true) :
    dnsCalls (onModuleInit env o).events =
      (parseBrokers (jsOr env.KAFKA_BROKERS [])).map brokerHost ∧
    tcpCalls (onModuleInit env o).events =
      (parseBrokers (jsOr env.KAFKA_BROKERS [])).map
        (fun b => (brokerHost b, brokerPort b)) ∧
    (dnsCalls (onModuleInit env o).events).length =
      (parseBrokers (jsOr env.KAFKA_BROKERS [])).length ∧
    (tcpCalls (onModuleInit env o).events).length =
      (parseBrokers (jsOr env.KAFKA_BROKERS [])).length ∧
    (onModuleInit env o).raised = false := by
  have hbr : (readConfig env).brokers = parseBrokers (jsOr env.KAFKA_BROKERS []) := rfl
  by_cases h : parseBrokers (jsOr env.KAFKA_BROKERS []) = []
  · have htr : onModuleInit env o =
        { events := [Event.logBanner (bootInfo (readConfig env)), Event.logEmptyBrokers]
          raised := false } := by
      simp only [onModuleInit]
      rw [hbr, if_pos h]
    rw [htr, h]
    exact ⟨rfl, rfl, rfl, rfl, rfl⟩
  · obtain ⟨hflag, hdns, htcp⟩ := preflightAll_all_valid o _ hv
    obtain ⟨hev, hra⟩ := onModuleInit_valid env o h hv
    have h1 : dnsCalls (onModuleInit env o).events =
        (parseBrokers (jsOr env.KAFKA_BROKERS [])).map brokerHost := by
      rw [hev, dnsCalls_cons_banner, dnsCalls_append, hdns, dnsCalls_adminPhase,
        List.append_nil]
    have h2 : tcpCalls (onModuleInit env o).events =
        (parseBrokers (jsOr env.KAFKA_BROKERS [])).map
          (fun b => (brokerHost b, brokerPort b)) := by
      rw [hev, tcpCalls_cons_banner, tcpCalls_append, htcp, tcpCalls_adminPhase,
        List.append_nil]
    exact ⟨h1, h2, by rw [h1, List.length_map], by rw [h2, List.length_map], hra⟩

/-- Witness for `network_probe_per_endpoint`: two valid endpoints, DNS and
TCP failing on both. -/
theorem network_probe_per_endpoint_witness :
    dnsCalls (onModuleInit wEnvTwo wOracleFail).events =
      (parseBrokers (jsOr wEnvTwo.KAFKA_BROKERS [])).map brokerHost ∧
    tcpCalls (onModuleInit wEnvTwo wOracleFail).events =
      (parseBrokers (jsOr wEnvTwo.KAFKA_BROKERS [])).map
        (fun b => (brokerHost b, brokerPort b)) ∧
    (dnsCalls (onModuleInit wEnvTwo wOracleFail).events).length =
      (parseBrokers (jsOr wEnvTwo.KAFKA_BROKERS [])).length ∧
    (tcpCalls (onModuleInit wEnvTwo wOracleFail).events).length =
      (parseBrokers (jsOr wEnvTwo.KAFKA_BROKERS [])).length ∧
    (onModuleInit wEnvTwo wOracleFail).raised = false :=
  network_probe_per_endpoint wEnvTwo wOracleFail (by decide)

/-- C2: when the parsed broker list is empty (raw input empty or
whitespace-only), the run logs the boot banner, emits the
`KAFKA_BROKERS is empty` ERROR diagnostic and returns at once: the whole
trace is those two records, nothing is raised, and there are zero DNS
lookups, zero TCP probe invocations, no Kafka client construction and no
`admin.connect()` attempt.  Conversely, whenever the parsed list is
nonempty, probing always begins — the first endpoint's DNS lookup and TCP
probe invocation occur on every oracle — so the empty-list check is the
only path on which the run exits before probing.  (An invalid port token
can still abort the run, but that abort happens during probing, after this
first probe has been invoked.) -/
theorem empty_brokers_early_exit (env : Env) (o : Oracle) :
    (parseBrokers (jsOr env.KAFKA_BROKERS []) = [] →
      (onModuleInit env o).events =
        [Event.logBanner (bootInfo (readConfig env)), Event.logEmptyBrokers] ∧
      (onModuleInit env o).raised = false ∧
      dnsCalls (onModuleInit env o).events = [] ∧
      tcpCalls (onModuleInit env o).events = [] ∧
      ((onModuleInit env o).events).countP isClientConstruct = 0 ∧
      ((onModuleInit env o).events).countP isAdminConnect = 0) ∧
    (parseBrokers (jsOr env.KAFKA_BROKERS []) ≠ [] →
      dnsCalls (onModuleInit env o).events ≠ [] ∧
      tcpCalls (onModuleInit env o).events ≠ []) := by
  have hbr : (readConfig env).brokers = parseBrokers (jsOr env.KAFKA_BROKERS []) := rfl
  constructor
  · intro h
    have htr : onModuleInit env o =
        { events := [Event.logBanner (bootInfo (readConfig env)), Event.logEmptyBrokers]
          raised := false } := by
      simp only [onModuleInit]
      rw [hbr, if_pos h]
    refine ⟨?_, ?_, ?_, ?_, ?_, ?_⟩ <;> rw [htr] <;> rfl
  · intro h
    obtain ⟨b, bs, hcons⟩ := List.exists_cons_of_ne_nil h
    have hne := preflightAll_cons_ne o b bs
    simp only [onModuleInit]
    rw [hbr, if_neg h, hcons]
    by_cases hab : (preflightAll o (b :: bs)).2 = true
    · rw [if_pos hab]
      constructor
      · show dnsCalls (Event.logBanner (bootInfo (readConfig env)) ::
            (preflightAll o (b :: bs)).1) ≠ []
        rw [dnsCalls_cons_banner]
        exact hne.1
      · show tcpCalls (Event.logBanner (bootInfo (readConfig env)) ::
            (preflightAll o (b :: bs)).1) ≠ []
        rw [tcpCalls_cons_banner]
        exact hne.2
    · rw [if_neg hab]
      constructor
      · show dnsCalls (Event.logBanner (bootInfo (readConfig env)) ::
            ((preflightAll o (b :: bs)).1 ++ adminPhase (readConfig env) o)) ≠ []
        rw [dnsCalls_cons_banner, dnsCalls_append]
        intro hc
        exact hne.1 (List.append_eq_nil.mp hc).1
      · show tcpCalls (Event.logBanner (bootInfo (readConfig env)) ::
            ((preflightAll o (b :: bs)).1 ++ adminPhase (readConfig env) o)) ≠ []
        rw [tcpCalls_cons_banner, tcpCalls_append]
        intro hc
        exact hne.2 (List.append_eq_nil.mp hc).1

/-- Witness for `empty_brokers_early_exit` at a whitespace-only broker
list, and — for the converse — at the single bad-port broker `x:abc`,
where probing still begins before the run aborts. -/
theorem empty_brokers_early_exit_witness :
    ((onModuleInit wEnvEmpty wOracleFail).events =
      [Event.logBanner (bootInfo (readConfig wEnvEmpty)), Event.logEmptyBrokers] ∧
     (onModuleInit wEnvEmpty wOracleFail).raised = false ∧
     dnsCalls (onModuleInit wEnvEmpty wOracleFail).events = [] ∧
     tcpCalls (onModuleInit wEnvEmpty wOracleFail).events = [] ∧
     ((onModuleInit wEnvEmpty wOracleFail).events).countP isClientConstruct = 0 ∧
     ((onModuleInit wEnvEmpty wOracleFail).events).countP isAdminConnect = 0) ∧
    (dnsCalls (onModuleInit wEnvOneBad wOracleFail).events ≠ [] ∧
     tcpCalls (onModuleInit wEnvOneBad wOracleFail).events ≠ []) :=
  ⟨(empty_brokers_early_exit wEnvEmpty wOracleFail).1 (by decide),
   (empty_brokers_early_exit wEnvOneBad wOracleFail).2 (by decide)⟩

/-- C4 counterexample: the configuration `["x:abc"]` is nonempty, yet the
run's TCP probe rejects at the NaN port, `onModuleInit` raises, and the
`admin.connect()` attempt is never reached — refuting the claim for
arbitrary nonempty configurations. -/
theorem connect_not_reached_counterexample :
    parseBrokers (jsOr wEnvOneBad.KAFKA_BROKERS []) ≠ [] ∧
    Event.adminConnect ∉ (onModuleInit wEnvOneBad wOracleFail).events ∧
    (onModuleInit wEnvOneBad wOracleFail).raised = true := by
  decide

/-- C4 (amended): for every nonempty broker configuration whose endpoints
all carry valid port tokens, and for every oracle — in particular when the
DNS step and the TCP step fail for every configured endpoint — the run
still reaches and performs the `admin.connect()` attempt: no Network Probe
failure short-circuits the protocol-level connect.  (An invalid port token
is the one exception: its probe rejects and aborts the method before the
connect.) -/
theorem connect_attempted_despite_probe_failures (env : Env) (o : Oracle)
    (h : parseBrokers (jsOr env.KAFKA_BROKERS []) ≠ [])
    (hv : (parseBrokers (jsOr env.KAFKA_BROKERS [])).all
        (fun b => validPort (brokerPort b)) = true) :
    Event.adminConnect ∈ (onModuleInit env o).events := by
  obtain ⟨hev, -⟩ := onModuleInit_valid env o h hv
  rw [hev]
  refine List.mem_cons_of_mem _ (List.mem_append_right _ ?_)
  rw [adminPhase]
  exact List.mem_append_left _ (by simp)

/-- Witness for `connect_attempted_despite_probe_failures`: two brokers
with valid ports, DNS failing and TCP timing out on both, admin connect
itself failing. -/
theorem connect_attempted_despite_probe_failures_witness :
    Event.adminConnect ∈ (onModuleInit wEnvTwo wOracleFail).events :=
  connect_attempted_despite_probe_failures wEnvTwo wOracleFail (by decide) (by decide)

/-- One observable step of an `onModuleDestroy` run. -/
inductive DestroyEvent
  | logDisconnecting
  | adminDisconnect
  | logDisconnected
  | logWarnDisconnect (message : JStr)
deriving DecidableEq

/-- Outcome of a method body in the exception model: the events performed
plus the error it raised, if any. -/
structure MethodRun where
  events : List DestroyEvent
  raised : Option JsErr
deriving DecidableEq

/-- Test for the warning record of a failed disconnect. -/
def isWarnDisconnect : DestroyEvent → Bool
  | DestroyEvent.logWarnDisconnect _ => true
  | _ => false

/-- Test for the underlying `admin.disconnect()` invocation. -/
def isDisconnectCall : DestroyEvent → Bool
  | DestroyEvent.adminDisconnect => true
  | _ => false

/-- Body of the `try` in the expanded variant's `onModuleDestroy`
(lines 259-264): when the admin handle exists, log, call
`admin.disconnect()` — whose failure raises out of the body before the
success log — otherwise do nothing. -/
def destroyBody (hasAdmin : Bool) (disconnect : Except JsErr Unit) : MethodRun :=
  if hasAdmin then
    match disconnect with
    | Except.ok _ =>
      { events := [DestroyEvent.logDisconnecting, DestroyEvent.adminDisconnect,
                   DestroyEvent.logDisconnected]
        raised := none }
    | Except.error e =>
      { events := [DestroyEvent.logDisconnecting, DestroyEvent.adminDisconnect]
        raised := some e }
  else { events := [], raised := none }

/-- Embedding of the expanded variant's `onModuleDestroy` (lines 258-268):
the `catch` converts any raise from the body into one warning record
`Disconnect error: ${e?.message || e}`; nothing propagates. -/
def onModuleDestroy (hasAdmin : Bool) (disconnect : Except JsErr Unit) : MethodRun :=
  let body := destroyBody hasAdmin disconnect
  match body.raised with
  | none => body
  | some e =>
    { events := body.events ++ [DestroyEvent.logWarnDisconnect (jsOr e.message e.rendering)]
      raised := none }

/-- Body of the `try` in the simple variant's `onModuleDestroy`
(`src/kafka.service.ts` lines 87-96): call `admin.disconnect()` then log
success; no pre-log line. -/
def simpleDestroyBody (hasAdmin : Bool) (disconnect : Except JsErr Unit) : MethodRun :=
  if hasAdmin then
    match disconnect with
    | Except.ok _ =>
      { events := [DestroyEvent.adminDisconnect, DestroyEvent.logDisconnected]
        raised := none }
    | Except.error e =>
      { events := [DestroyEvent.adminDisconnect], raised := some e }
  else { events := [], raised := none }

/-- Embedding of the simple variant's `onModuleDestroy`: its `catch` block
is empty (`catch { /* ignore */ }`), so a failure is swallowed with no
record at all. -/
def simpleOnModuleDestroy (hasAdmin : Bool) (disconnect : Except JsErr Unit) : MethodRun :=
  let body := simpleDestroyBody hasAdmin disconnect
  match body.raised with
  | none => body
  | some _ => { events := body.events, raised := none }

/-- Concrete disconnect error, for the counterexample and witnesses. -/
def wDiscErr : JsErr :=
  { name := some (strL "KafkaJSError")
    message := some (strL "connection already closed")
    stack := []
    rendering := strL "KafkaJSError: connection already closed" }

/-- C9 counterexample: in the simple variant a handle exists and the
underlying disconnect fails; nothing propagates (first conjunct) but no
warning is logged either (second conjunct: zero warning records, the whole
trace being just the disconnect call), contradicting the claim that a
failed disconnect logs a warning. -/
theorem disconnect_silent_counterexample :
    (simpleOnModuleDestroy true (Except.error wDiscErr)).raised = none ∧
    (simpleOnModuleDestroy true (Except.error wDiscErr)).events.countP isWarnDisconnect = 0 ∧
    (simpleOnModuleDestroy true (Except.error wDiscErr)).events =
      [DestroyEvent.adminDisconnect] := by
  decide

/-- C9 (amended): disconnect is best-effort in both variants — whatever the
underlying `admin.disconnect()` outcome, `onModuleDestroy` never raises to
its caller, and without a handle no underlying call is made (empty trace);
on failure the expanded variant logs exactly one warning carrying the
error's message, while the simple variant swallows the failure silently,
logging nothing. -/
theorem disconnect_best_effort (e : JsErr) (d : Except JsErr Unit) :
    (onModuleDestroy true d).raised = none ∧
    (onModuleDestroy false d).raised = none ∧
    (simpleOnModuleDestroy true d).raised = none ∧
    (simpleOnModuleDestroy false d).raised = none ∧
    (onModuleDestroy false d).events = [] ∧
    (simpleOnModuleDestroy false d).events = [] ∧
    (onModuleDestroy true (Except.error e)).events =
      [DestroyEvent.logDisconnecting, DestroyEvent.adminDisconnect,
       DestroyEvent.logWarnDisconnect (jsOr e.message e.rendering)] ∧
    (onModuleDestroy true (Except.error e)).events.countP isWarnDisconnect = 1 ∧
    (simpleOnModuleDestroy true (Except.error e)).events.countP isWarnDisconnect = 0 := by
  cases d with
  | ok u =>
      refine ⟨rfl, rfl, rfl, rfl, rfl, rfl, rfl, rfl, rfl⟩
  | error e2 =>
      refine ⟨rfl, rfl, rfl, rfl, rfl, rfl, rfl, rfl, rfl⟩
